import Mathlib

/-!
Verification development for the LuxQuant signal ingestion and correlation
engine (scraper_core.py).  The Python source is embedded shallowly: the pure
text functions (classify, parse_call, parse_update) are translated to total
Lean functions over character lists, the storage tables to Lean lists of row
structures, and the ingestion driver (process_messages) to an explicit
state-passing fold.  Regular-expression searches are rendered as explicit
leftmost-position scans whose per-position matchers net out the backtracking
behaviour of the concrete patterns used by the source; each matcher carries a
comment naming the pattern it renders.
-/

namespace LuxQuant

/-! ### Character classes

Python `\s` (the ASCII part used by the message texts), `\w` and the digit and
letter classes of the patterns. -/

def pyIsSpace (c : Char) : Bool :=
  c = ' ' || c = '\t' || c = '\n' || c = '\r' || c = '\x0b' || c = '\x0c'

/-- Python word character `[A-Za-z0-9_]`, as used by the zero-width `\b`. -/
def isWordChar (c : Char) : Bool := c.isAlphanum || c = '_'

/-- Case-insensitive character comparison (re.I). -/
def lowEq (a b : Char) : Bool := a.toLower = b.toLower

/-! ### Matching primitives

A matcher consumes a literal or a character class from the head of the input
and returns the rest; `none` means the pattern fails at this position. -/

/-- Match a literal case-insensitively (re.I); returns the remaining input. -/
def matchCI : List Char → List Char → Option (List Char)
  | [], s => some s
  | _, [] => none
  | p :: ps, c :: cs => if lowEq p c then matchCI ps cs else none

/-- Match one exact character (case sensitive). -/
def matchChar (c : Char) : List Char → Option (List Char)
  | x :: xs => if x = c then some xs else none
  | [] => none

/-- `\s*` (always succeeds, consumes greedily; the following pattern pieces
never start with whitespace, so greediness is exact). -/
def wsStar (s : List Char) : List Char := s.dropWhile pyIsSpace

/-- `\s+`. -/
def wsPlus (s : List Char) : Option (List Char) :=
  match s with
  | c :: cs => if pyIsSpace c then some (wsStar cs) else none
  | [] => none

/-- `[:：]?` — the optional full/half-width colon of the label patterns. -/
def colonOpt (s : List Char) : List Char :=
  match s with
  | c :: cs => if c = ':' || c = '：' then cs else s
  | [] => []

/-- `[:：]` — the required colon of the Entry pattern. -/
def colonReq (s : List Char) : Option (List Char) :=
  match s with
  | c :: cs => if c = ':' || c = '：' then some cs else none
  | [] => none

/-- `\d+`, maximal run; returns the run and the rest. -/
def digitsPlus (s : List Char) : Option (List Char × List Char) :=
  let p := s.span Char.isDigit
  if p.1.isEmpty then none else some (p.1, p.2)

/-- Digit list to the integer Python's `int` produces. -/
def natOf (d : List Char) : Nat :=
  d.foldl (fun n c => 10 * n + (c.toNat - 48)) 0

/-- `NUM = ([0-9]*\.?[0-9]+)`.  The greedy/backtracking behaviour nets to:
a maximal digit run, extended by `.` plus a maximal digit run when a digit
follows the dot; a bare leading `.` requires at least one digit after it.
Returns the matched numeral (the captured group) and the rest. -/
def numAt (s : List Char) : Option (String × List Char) :=
  let p := s.span Char.isDigit
  match p.1, p.2 with
  | [], '.' :: r2 =>
    let q := r2.span Char.isDigit
    if q.1.isEmpty then none else some (String.mk ('.' :: q.1), q.2)
  | [], _ => none
  | d1, '.' :: r2 =>
    let q := r2.span Char.isDigit
    if q.1.isEmpty then some (String.mk d1, p.2)
    else some (String.mk (d1 ++ '.' :: q.1), q.2)
  | d1, _ => some (String.mk d1, p.2)

/-- `re.search`: try the matcher at every position, leftmost success wins. -/
def search (m : List Char → Option α) : List Char → Option α
  | [] => m []
  | c :: cs =>
    match m (c :: cs) with
    | some v => some v
    | none => search m cs

/-- No word character right before the position: the `\b` that precedes a
pattern starting with a word character. -/
def noWordBefore : Option Char → Bool
  | none => true
  | some c => !isWordChar c

/-- `re.search` for a pattern that begins with `\b` followed by a word
character: only positions whose preceding character is not a word character
are tried. -/
def searchWB (m : List Char → Option α) : Option Char → List Char → Option α
  | prev, [] => if noWordBefore prev then m [] else none
  | prev, c :: cs =>
    match (if noWordBefore prev then m (c :: cs) else none) with
    | some v => some v
    | none => searchWB m (some c) cs

/-! ### The shared pattern vocabulary (scraper_core.py lines 34-37) -/

/-- `HIT_MARK = (✅|✔️|☑️|hit|reached|achieved)` — the two emoji that carry a
variation selector are two scalars each; alternatives tried in order. -/
def hitAt (s : List Char) : Option (List Char) :=
  (matchCI ['✅'] s).orElse fun _ =>
  (matchCI ['✔', '\uFE0F'] s).orElse fun _ =>
  (matchCI ['☑', '\uFE0F'] s).orElse fun _ =>
  (matchCI "hit".data s).orElse fun _ =>
  (matchCI "reached".data s).orElse fun _ =>
  matchCI "achieved".data s

/-- `.*?HIT_MARK` with re.S: a hit marker exists at or after this position. -/
def hitExists (s : List Char) : Bool := (search hitAt s).isSome

/-- `SL_LABEL = (?:stop\s*loss|stoploss|sl)`.  The `stoploss` alternative is
subsumed by `stop\s*loss` with empty `\s*`, and a position matching `stop`
can never also match `sl`, so the alternation nets to two branches. -/
def slLabelAt (s : List Char) : Option (List Char) :=
  (do
    let r ← matchCI "stop".data s
    matchCI "loss".data (wsStar r)).orElse fun _ =>
  matchCI "sl".data s

/-- A stop-loss label occurs anywhere in the text. -/
def slLabelExists (s : List Char) : Bool := (search slLabelAt s).isSome

/-- `[A-Z0-9]` with re.I — the pair-token alphabet (letters and digits, no
underscore). -/
def isPairChar (c : Char) : Bool := c.isAlphanum

/-- Lower-cased copy of a character list. -/
def lowerAll (l : List Char) : List Char := l.map Char.toLower

/-- `PAIR_RX = \b([A-Z0-9]{2,}USDT)\b` at one position: the maximal
alphanumeric run here must have length at least 6 (two head characters plus
`USDT`), end in `usdt` case-insensitively, and be followed by a non-word
character or the end (the trailing `\b`; an inner match end is impossible
because every inner position is followed by a word character). -/
def pairAt (s : List Char) : Option String :=
  let p := s.span isPairChar
  let run := p.1
  let rest := p.2
  let bAfter := match rest with | [] => true | c :: _ => !isWordChar c
  if 6 ≤ run.length && lowerAll (run.drop (run.length - 4)) = "usdt".data && bAfter then
    some (String.mk (run.map Char.toUpper))
  else none

/-- `re.search(PAIR_RX, t)` with the leading `\b`: scan positions whose
previous character is not a word character. -/
def pairSearch (t : List Char) : Option String := searchWB pairAt none t

/-! ### Classifier (scraper_core.py `classify`, lines 151-161) -/

/-- Python `str.strip()` restricted to the whitespace the texts contain. -/
def pyStrip (s : List Char) : List Char :=
  ((s.dropWhile pyIsSpace).reverse.dropWhile pyIsSpace).reverse

/-- `re.search(r"Daily\s+Results", t, re.I)`. -/
def dailyResultsRx (t : List Char) : Bool :=
  (search (fun s => do
    let r ← matchCI "daily".data s
    let r ← wsPlus r
    matchCI "results".data r) t).isSome

/-- `re.search(r"\bEntry\s*[:：]\s*NUM", t, re.I)` — the call shape. -/
def entryCallRx (t : List Char) : Bool :=
  (searchWB (fun s => do
    let r ← matchCI "entry".data s
    let r ← colonReq (wsStar r)
    let _ ← numAt (wsStar r)
    some ()) none t).isSome

/-- `re.search(r"\bTarget\s*\d+\s*[:：]?\s*NUM.*?HIT", t, re.I|re.S)`.
Backtracking nets out: after a maximal digit run of length n, either the
tail `\s*[:：]?\s*NUM` matches after the run (the greedy split), or n ≥ 2 and
the regex gives the last digit of the run to NUM; the hit marker can then be
sought from the end of the run, since a marker can never sit among the
digit/colon/whitespace characters the two splits disagree on. -/
def targetHitRx (t : List Char) : Bool :=
  (searchWB (fun s => do
    let r ← matchCI "target".data s
    let (d, r) ← digitsPlus (wsStar r)
    let numOk := 2 ≤ d.length || (numAt (wsStar (colonOpt (wsStar r)))).isSome
    if numOk && hitExists r then some () else none) none t).isSome

/-- `re.search(r"\bTP\s*\d+\b.*?HIT", t, re.I|re.S)`: the trailing `\b` after
`\d+` forces the maximal digit run to be followed by a non-word character. -/
def tpHitRx (t : List Char) : Bool :=
  (searchWB (fun s => do
    let r ← matchCI "tp".data s
    let (_, r) ← digitsPlus (wsStar r)
    let bAfter := match r with | [] => true | c :: _ => !isWordChar c
    if bAfter && hitExists r then some () else none) none t).isSome

/-- `classify` (lines 151-161): daily-results marker first, then the call
shape, then the three update shapes, else `other`. -/
def classify (text : String) : String :=
  let t := pyStrip text.data
  if dailyResultsRx t then "other"
  else if entryCallRx t then "call"
  else if targetHitRx t || slLabelExists t || tpHitRx t then "update"
  else "other"

/-! ### Call extractor (scraper_core.py `parse_call`, lines 163-185)

The label-anchored searches of `parse_call` carry no `\b`, so they use the
plain leftmost scan. -/

structure CallFields where
  pair : Option String
  entry : Option String
  target1 : Option String
  target2 : Option String
  target3 : Option String
  target4 : Option String
  stop1 : Option String
  stop2 : Option String
  risk_level : Option String
  volume_rank_num : Option Nat
  volume_rank_den : Option Nat
deriving DecidableEq

/-- The digit character of a level 1..4, as it appears inside the f-string
patterns. -/
def digitChar (k : Nat) : Char := Char.ofNat (48 + k)

/-- `fnum(r"Entry\s*[:：]\s*NUM")`. -/
def entryNum (t : List Char) : Option String :=
  (search (fun s => do
    let r ← matchCI "entry".data s
    let r ← colonReq (wsStar r)
    numAt (wsStar r)) t).map (·.1)

/-- `fnum(rf"Target\s*{k}\s*[:：]?\s*NUM")`. -/
def targetNum (k : Nat) (t : List Char) : Option String :=
  (search (fun s => do
    let r ← matchCI "target".data s
    let r ← matchChar (digitChar k) (wsStar r)
    numAt (wsStar (colonOpt (wsStar r)))) t).map (·.1)

/-- `fnum(rf"SL_LABEL\s*{k}\s*[:：]?\s*NUM")`. -/
def stopNum (k : Nat) (t : List Char) : Option String :=
  (search (fun s => do
    let r ← slLabelAt s
    let r ← matchChar (digitChar k) (wsStar r)
    numAt (wsStar (colonOpt (wsStar r)))) t).map (·.1)

/-- Python `str.title()` on the single `[A-Za-z]+` word the risk pattern
captures: first letter upper-cased, the rest lower-cased. -/
def titleWord : List Char → String
  | [] => ""
  | c :: cs => String.mk (c.toUpper :: lowerAll cs)

/-- `re.search(r"Risk\s*Level\s*[:：]?\s*([A-Za-z]+)", t, re.I)`, group
title-cased (line 173-174; the `and/or` chain yields None when absent). -/
def riskLevelOf (t : List Char) : Option String :=
  (search (fun s => do
    let r ← matchCI "risk".data s
    let r ← matchCI "level".data (wsStar r)
    let q := (wsStar (colonOpt (wsStar r))).span Char.isAlpha
    if q.1.isEmpty then none else some q.1) t).map titleWord

/-- `re.search(r"Volume\(24H\)\s*Ranked\s*[:：]?\s*(\d+)\D+(\d+)", t, re.I)`:
after the first digit run, `\D+` greedily crosses the (necessarily non-empty)
non-digit gap and the second group is the next digit run. -/
def volumeRank (t : List Char) : Option (Nat × Nat) :=
  search (fun s => do
    let r ← matchCI "volume(24h)".data s
    let r ← matchCI "ranked".data (wsStar r)
    let (d1, r) ← digitsPlus (wsStar (colonOpt (wsStar r)))
    if r.isEmpty then none
    else
      let r2 := r.dropWhile (fun c => !c.isDigit)
      let (d2, _) ← digitsPlus r2
      some (natOf d1, natOf d2)) t

/-- `parse_call` (lines 163-185). -/
def parse_call (text : String) : CallFields :=
  let t := text.data
  { pair := pairSearch t
    entry := entryNum t
    target1 := targetNum 1 t
    target2 := targetNum 2 t
    target3 := targetNum 3 t
    target4 := targetNum 4 t
    stop1 := stopNum 1 t
    stop2 := stopNum 2 t
    risk_level := riskLevelOf t
    volume_rank_num := (volumeRank t).map (·.1)
    volume_rank_den := (volumeRank t).map (·.2) }

/-! ### Update extractor (scraper_core.py `parse_update`, lines 187-207) -/

structure UpdFields where
  pair : Option String
  events : List (String × Option String)
deriving DecidableEq

/-- `rf"(?:Target|TP)\s*{k}\s*[:：]?\s*NUM.*?HIT"` (line 192) together with
the price re-search of line 194.  The two searches return the same leftmost
position and the same NUM group whenever the full form matches at all (a
marker can neither sit inside the label/whitespace/number region nor can a
later label start inside it), so one scan suffices: prefix match plus a hit
marker at or after the number. -/
def tpFullNum (k : Nat) (t : List Char) : Option String :=
  search (fun s => do
    let r ← (matchCI "target".data s).orElse fun _ => matchCI "tp".data s
    let r ← matchChar (digitChar k) (wsStar r)
    let (num, r) ← numAt (wsStar (colonOpt (wsStar r)))
    if hitExists r then some num else none) t

/-- `rf"(?:TP|Target|T)\s*{k}\b.*?HIT"` (line 196): alternatives in source
order, each with the full continuation (regex backtracking). -/
def tpLooseRx (k : Nat) (t : List Char) : Bool :=
  (search (fun s =>
    let cont : List Char → Option Unit := fun r => do
      let r ← matchChar (digitChar k) (wsStar r)
      let bAfter := match r with | [] => true | c :: _ => !isWordChar c
      if bAfter && hitExists r then some () else none
    ((matchCI "tp".data s).bind cont).orElse fun _ =>
    ((matchCI "target".data s).bind cont).orElse fun _ =>
    (matchCI "t".data s).bind cont) t).isSome

/-- `rf"Target\s*{k}\s*(?:hit|reached|achieved)"` (line 198). -/
def tpPlainRx (k : Nat) (t : List Char) : Bool :=
  (search (fun s => do
    let r ← matchCI "target".data s
    let r ← matchChar (digitChar k) (wsStar r)
    let r := wsStar r
    (matchCI "hit".data r).orElse fun _ =>
    (matchCI "reached".data r).orElse fun _ =>
    matchCI "achieved".data r) t).isSome

/-- The loop body for one level k (lines 191-199): the full priced form wins,
then the loose form, then the bare `Target k hit` form; at most one event per
level (`continue`).  `some p` is the price slot of the emitted event. -/
def tpEvent (k : Nat) (t : List Char) : Option (Option String) :=
  match tpFullNum k t with
  | some num => some (some num)
  | none =>
    if tpLooseRx k t then some none
    else if tpPlainRx k t then some none
    else none

/-- `rf"SL_LABEL(?:\s*\d+)?\s*[:：]?\s*NUM"` (line 201) after the label, with
Python's backtracking netted: the greedy optional digit group first consumes
the whole digit run and tries `\s*[:：]?\s*NUM` after it; failing that it
gives the last digit of the run to NUM (shorter splits of the run and the
group-absent alternative can add nothing beyond these two). -/
def slAfterLabel (s : List Char) : Option String :=
  let s1 := wsStar s
  let p := s1.span Char.isDigit
  let tailNum : List Char → Option String := fun r =>
    (numAt (wsStar (colonOpt (wsStar r)))).map (·.1)
  if p.1.isEmpty then tailNum s1
  else
    match tailNum p.2 with
    | some v => some v
    | none => (p.1.getLast?).map (fun c => String.mk [c])

/-- The price search of line 201-202. -/
def slPriceSearch (t : List Char) : Option String :=
  search (fun s => do
    let r ← slLabelAt s
    slAfterLabel r) t

/-- `r"(all\s+targets\s+(hit|reached|achieved)|tp\s*4\s*(hit|reached|done))"`
(line 204). -/
def allTargetsRx (t : List Char) : Bool :=
  (search (fun s =>
    (do
      let r ← matchCI "all".data s
      let r ← wsPlus r
      let r ← matchCI "targets".data r
      let r ← wsPlus r
      (matchCI "hit".data r).orElse fun _ =>
      (matchCI "reached".data r).orElse fun _ =>
      matchCI "achieved".data r).orElse fun _ => do
      let r ← matchCI "tp".data s
      let r ← matchChar '4' (wsStar r)
      let r := wsStar r
      (matchCI "hit".data r).orElse fun _ =>
      (matchCI "reached".data r).orElse fun _ =>
      matchCI "done".data r) t).isSome

/-- `parse_update` (lines 187-207): one pass over the levels 1..4, then the
stop-loss event, then the message-local tp4 dedup append. -/
def parse_update (text : String) : UpdFields :=
  let t := text.data
  let tpEvs := [1, 2, 3, 4].filterMap fun k =>
    (tpEvent k t).map (fun p => ("tp" ++ toString k, p))
  let evs := if slLabelExists t then tpEvs ++ [("sl", slPriceSearch t)] else tpEvs
  let evs :=
    if allTargetsRx t && !(evs.any (fun e => e.1 == "tp4")) then
      evs ++ [("tp4", (none : Option String))]
    else evs
  { pair := pairSearch t, events := evs }

/-! ### Data model (scraper_core.py `ensure_tables`, lines 74-109)

A table is a list of row structures; prices are carried as the exact numeral
the extractor matched (the claims compare them only for presence and
identity, never arithmetically). -/

/-- One row of `signals` (lines 74-89). -/
structure SignalRow where
  signal_id : String
  channel_id : Int
  call_message_id : Nat
  message_link : String
  pair : Option String
  entry : Option String
  target1 : Option String
  target2 : Option String
  target3 : Option String
  target4 : Option String
  stop1 : Option String
  stop2 : Option String
  risk_level : Option String
  volume_rank_num : Option Nat
  volume_rank_den : Option Nat
  created_at : String
  status : String
  raw_text : String
  text_sha1 : String
  edit_date : Option String
deriving DecidableEq

/-- One row of `signal_updates` (lines 94-107); the primary key is
`(channel_id, update_message_id, update_type)`. -/
structure UpdateRow where
  signal_id : String
  channel_id : Int
  update_message_id : Nat
  message_link : String
  update_type : String
  price : Option String
  update_at : String
  raw_text : String
  reply_to_msg_id : Option Nat
  linked_msg_id : Option Nat
deriving DecidableEq

/-- The message object delivered by the transport collaborator (spec section
6): id, channel, text, timestamps, reply target and the already-extracted
urls of its link entities.  `flood` is the environment model for claim C5: a
`some seconds` message is one during whose processing the provider raises
`FloodWaitError(seconds)`. -/
structure Msg where
  id : Nat
  chat_id : Int
  text : String
  date : String
  edit_date : Option String
  reply_to_msg_id : Option Nat
  entities : List String
  flood : Option Nat
deriving DecidableEq

/-- `message_link` (lines 45-47). -/
def message_link (chat_id : Int) (msg_id : Nat) : String :=
  let s := toString chat_id
  if s.startsWith "-100" then
    "https://t.me/c/" ++ s.drop 4 ++ "/" ++ toString msg_id
  else
    "https://t.me/" ++ s ++ "/" ++ toString msg_id

/-- `sha1` (lines 31-32): the cryptographic digest is modelled by an
injective placeholder; no claim inspects the hash value itself. -/
def sha1 (s : String) : String := "sha1:" ++ s

/-- The tail pattern of `extract_linked_msg_id` (line 56),
`r"/(?:c/\d+|[A-Za-z0-9_]+)/(\d+)$"`, tried at one position.  The greedy runs
cannot be shortened by backtracking (each shorter run leaves a same-class
character where a delimiter is required), so both alternatives reduce to
maximal runs; the `$` anchors the final digit group at the end. -/
def urlMsgIdAt (s : List Char) : Option Nat := do
  let r ← matchChar '/' s
  let tailCont : List Char → Option Nat := fun r => do
    let r ← matchChar '/' r
    let (d, r2) ← digitsPlus r
    if r2.isEmpty then some (natOf d) else none
  (do
    let r1 ← matchChar 'c' r
    let r1 ← matchChar '/' r1
    let (_, r1) ← digitsPlus r1
    tailCont r1).orElse fun _ => do
    let p := r.span isWordChar
    if p.1.isEmpty then none else tailCont p.2

/-- `extract_linked_msg_id` (lines 49-62): first link entity whose url ends
in a message id.  The telethon entity objects live outside the embedded
boundary; `Msg.entities` carries the url strings the loop would extract. -/
def extract_linked_msg_id (m : Msg) : Option Nat :=
  m.entities.findSome? (fun u => search urlMsgIdAt u.data)

/-! ### Persistence layer (scraper_core.py lines 210-362) -/

/-- The `ON CONFLICT (call_message_id) DO UPDATE SET ...` column list of
`upsert_signal` (lines 247-264): every mutable column is overwritten from the
excluded row; `signal_id` and `status` are not in the SET list and keep the
existing row's values.  (The SQLite branch, lines 282-299, lists the same
columns.) -/
def sqlConflictOverwrite (old rec : SignalRow) : SignalRow :=
  { rec with signal_id := old.signal_id, status := old.status }

/-- `upsert_signal` (lines 210-305) on the signals table: insert keyed by the
unique `call_message_id`, or overwrite the mutable columns on conflict.  The
returned scalar is the row's `signal_id` (`RETURNING signal_id`; the SQLite
branch re-selects it by `call_message_id`), i.e. the fresh id only on a true
insert.  The caller passes the freshly generated uuid inside `rec`. -/
def upsert_signal (signals : List SignalRow) (rec : SignalRow) :
    String × List SignalRow :=
  match signals.find? (fun r => r.call_message_id == rec.call_message_id) with
  | some old =>
    (old.signal_id,
     signals.map fun r =>
       if r.call_message_id == rec.call_message_id then sqlConflictOverwrite r rec
       else r)
  | none => (rec.signal_id, signals ++ [rec])

/-- The record `upsert_signal` builds from a message and extracted fields
(lines 211-232); `fresh` is the `uuid.uuid4()` value. -/
def mkSignalRec (m : Msg) (fields : CallFields) (fresh : String) : SignalRow :=
  { signal_id := fresh
    channel_id := m.chat_id
    call_message_id := m.id
    message_link := message_link m.chat_id m.id
    pair := fields.pair
    entry := fields.entry
    target1 := fields.target1
    target2 := fields.target2
    target3 := fields.target3
    target4 := fields.target4
    stop1 := fields.stop1
    stop2 := fields.stop2
    risk_level := fields.risk_level
    volume_rank_num := fields.volume_rank_num
    volume_rank_den := fields.volume_rank_den
    created_at := m.date
    status := "open"
    raw_text := m.text
    text_sha1 := sha1 m.text
    edit_date := none }

/-- The primary-key predicate of `signal_updates`. -/
def updKey (m : Msg) (utype : String) (r : UpdateRow) : Bool :=
  r.channel_id == m.chat_id && r.update_message_id == m.id && r.update_type == utype

/-- `insert_update` (lines 307-332): `INSERT ... ON CONFLICT(channel_id,
update_message_id, update_type) DO NOTHING`; always returns True. -/
def insert_update (updates : List UpdateRow) (signal_id : String) (m : Msg)
    (utype : String) (price : Option String) : Bool × List UpdateRow :=
  let row : UpdateRow :=
    { signal_id := signal_id
      channel_id := m.chat_id
      update_message_id := m.id
      message_link := message_link m.chat_id m.id
      update_type := utype
      price := price
      update_at := m.date
      raw_text := m.text
      reply_to_msg_id := m.reply_to_msg_id
      linked_msg_id := extract_linked_msg_id m }
  if updates.any (updKey m utype) then (true, updates)
  else (true, updates ++ [row])

/-- The rank table of `bump_status` (line 335): a dict lookup with default 0
for unknown statuses. -/
def order (s : String) : Nat :=
  if s == "open" then 0
  else if s == "tp1" then 1
  else if s == "tp2" then 2
  else if s == "tp3" then 3
  else if s == "closed_win" then 4
  else if s == "closed_loss" then 4
  else 0

/-- The pure next-status computation inlined in `bump_status`
(lines 336-342). -/
def next_status (current utype : String) : String :=
  if utype == "tp1" || utype == "tp2" || utype == "tp3" then
    if order utype > order current then utype else current
  else if utype == "tp4" then "closed_win"
  else if utype == "sl" && current != "closed_win" then "closed_loss"
  else current

/-- `bump_status` (lines 334-347): compute the next status and write it to
the signals table only when it differs from the passed current status. -/
def bump_status (signals : List SignalRow) (signal_id current utype : String) :
    String × List SignalRow :=
  let new_status := next_status current utype
  if new_status != current then
    (new_status,
     signals.map fun r =>
       if r.signal_id == signal_id then { r with status := new_status } else r)
  else (new_status, signals)

/-- The status set of the fallback query (line 356). -/
def openLike (s : String) : Bool :=
  s == "open" || s == "tp1" || s == "tp2" || s == "tp3"

/-- `choose_signal_for_update` (lines 349-362): most recent signal on the
channel and pair strictly before the update id and still open-like
(`ORDER BY call_message_id DESC LIMIT 1`; `call_message_id` is unique, so
the maximum is well defined). -/
def choose_signal_for_update (signals : List SignalRow) (pair : String)
    (chat_id : Int) (update_msg_id : Nat) : Option SignalRow :=
  let cands := signals.filter fun r =>
    r.channel_id == chat_id && r.pair == some pair &&
    decide (r.call_message_id < update_msg_id) && openLike r.status
  cands.foldl (fun acc r =>
    match acc with
    | none => some r
    | some b => if b.call_message_id < r.call_message_id then some r else some b)
    none

/-! ### Ingestion driver (scraper_core.py `process_messages`, lines 364-489)

The working-set dict `last_open` maps pair to `(signal_id, call_message_id,
status)`; the second component is `Option Nat` because line 472 can store
`None` there.  Comparing such a `None` against a message id (line 443) is a
Python `TypeError`, caught by the per-message handler; the driver model
therefore returns `Except PyError` from the places that can raise. -/

inductive PyError
  | typeError
deriving DecidableEq

/-- A `last_open` entry: `(signal_id, call_message_id, status)`. -/
abbrev CacheEntry := String × Option Nat × String

/-- The `last_open` dict, as an insertion-ordered association list. -/
abbrev Cache := List (String × CacheEntry)

def cacheGet (c : Cache) (k : String) : Option CacheEntry :=
  (c.find? (fun kv => kv.1 == k)).map (·.2)

def cacheSet (c : Cache) (k : String) (v : CacheEntry) : Cache :=
  if c.any (fun kv => kv.1 == k) then
    c.map (fun kv => if kv.1 == k then (k, v) else kv)
  else c ++ [(k, v)]

/-- `last_open.pop(pair, None)` (line 476). -/
def cachePop (c : Cache) (k : String) : Cache :=
  c.filter (fun kv => kv.1 != k)

/-- Both persisted tables. -/
structure DB where
  signals : List SignalRow
  updates : List UpdateRow
deriving DecidableEq

/-- The driver state threaded through the message loop: the storage, the
working-set cache, and the uuid source (`uuid.uuid4()` modelled as a
counter). -/
structure LoopState where
  db : DB
  last_open : Cache
  nextId : Nat
deriving DecidableEq

def freshUuid (n : Nat) : String := "uuid-" ++ toString n

/-- `SELECT signal_id, status FROM signals WHERE channel_id=:c AND
call_message_id=:m` (lines 429-431 and 437-439 and 378-380). -/
def lookup_call (signals : List SignalRow) (chat : Int) (mid : Nat) :
    Option SignalRow :=
  signals.find? (fun r => r.channel_id == chat && r.call_message_id == mid)

/-- Step 1 of the resolution chain (lines 426-432): the reply link.  Python
truthiness makes a reply id of 0 behave like no reply. -/
def resolve_via_reply (signals : List SignalRow) (m : Msg) :
    Option (String × String) :=
  match m.reply_to_msg_id with
  | some r =>
    if r ≠ 0 then (lookup_call signals m.chat_id r).map (fun row => (row.signal_id, row.status))
    else none
  | none => none

/-- Step 2 (lines 433-440): the embedded permalink, same truthiness. -/
def resolve_via_link (signals : List SignalRow) (m : Msg) :
    Option (String × String) :=
  match extract_linked_msg_id m with
  | some l =>
    if l ≠ 0 then (lookup_call signals m.chat_id l).map (fun row => (row.signal_id, row.status))
    else none
  | none => none

/-- Step 4 (lines 445-449): the storage fallback query; on success the
working-set cache is refreshed with the chosen row. -/
def resolve_fallback (st : LoopState) (m : Msg) (pair : String) :
    Option (String × String) × Cache :=
  match choose_signal_for_update st.db.signals pair m.chat_id m.id with
  | some row =>
    (some (row.signal_id, row.status),
     cacheSet st.last_open pair (row.signal_id, some row.call_message_id, row.status))
  | none => (none, st.last_open)

/-- The full resolution chain of the update branch (lines 424-452): reply
link, embedded link, working-set cache guarded by the causality check
`cache[1] < msg.id` (line 443; a cached `None` id raises TypeError there),
then the storage fallback. -/
def resolve_owner (st : LoopState) (m : Msg) (pair : String) :
    Except PyError (Option (String × String) × Cache) :=
  match resolve_via_reply st.db.signals m with
  | some s => .ok (some s, st.last_open)
  | none =>
    match resolve_via_link st.db.signals m with
    | some s => .ok (some s, st.last_open)
    | none =>
      match cacheGet st.last_open pair with
      | some (sid, some cid, cst) =>
        if cid < m.id then .ok (some (sid, cst), st.last_open)
        else .ok (resolve_fallback st m pair)
      | some (_, none, _) => .error .typeError
      | none => .ok (resolve_fallback st m pair)

/-- The per-event price fallback (lines 466-468): `fallback_prices` maps only
`tp1..tp4` to the owning signal's targets, so a price-less event keeps its
price unless it is one of those four types; `fb = none` models the
`fallback_prices = None` case of a missing signal row. -/
def event_price (fb : Option SignalRow) (utype : String)
    (price : Option String) : Option String :=
  match price with
  | some p => some p
  | none =>
    match fb with
    | some r =>
      if utype == "tp1" then r.target1
      else if utype == "tp2" then r.target2
      else if utype == "tp3" then r.target3
      else if utype == "tp4" then r.target4
      else none
    | none => none

/-- The events loop of the update branch (lines 466-476).  `sig_status` is
the status captured once at resolution time: the source never reassigns
`sig_row["status"]` inside the loop, so every event is ranked against the
pre-message status, while the written table and the cache do advance. -/
def run_event_loop (st : LoopState) (m : Msg) (pair : String)
    (sig_sid sig_status : String) (fb : Option SignalRow) :
    List (String × Option String) → LoopState
  | [] => st
  | (utype, price) :: rest =>
    let price := event_price fb utype price
    let (_ok, upds) := insert_update st.db.updates sig_sid m utype price
    let (new_status, sigs) := bump_status st.db.signals sig_sid sig_status utype
    let prev := match cacheGet st.last_open pair with
      | some (a, b, _) => (a, b)
      | none => (sig_sid, (none : Option Nat))
    let cache1 := cacheSet st.last_open pair (prev.1, prev.2, new_status)
    let cache2 :=
      if new_status == "closed_win" || new_status == "closed_loss" then
        cachePop cache1 pair
      else cache1
    run_event_loop
      { st with db := { signals := sigs, updates := upds }, last_open := cache2 }
      m pair sig_sid sig_status fb rest

/-- The update branch (lines 418-476): extract, resolve the owner, fetch the
target-price fallback row, then run the events loop. -/
def handle_update (st : LoopState) (m : Msg) : Except PyError LoopState :=
  let upd := parse_update m.text
  match upd.pair with
  | none => .ok st
  | some pair =>
    if upd.events.isEmpty then .ok st
    else do
      let (owner, cache) ← resolve_owner st m pair
      match owner with
      | none => .ok { st with last_open := cache }
      | some (sid, status) =>
        let fb := st.db.signals.find? (fun r => r.signal_id == sid)
        .ok (run_event_loop { st with last_open := cache } m pair sid status fb upd.events)

/-- The call branch (lines 406-416): persist only when both pair and entry
were extracted; the upsert runs before the `if sid:` guard, which only gates
the cache refresh (a truthy signal id). -/
def handle_call (st : LoopState) (m : Msg) : LoopState :=
  let fields := parse_call m.text
  match fields.pair, fields.entry with
  | some p, some _ =>
    let (sid, sigs) := upsert_signal st.db.signals (mkSignalRec m fields (freshUuid st.nextId))
    { db := { st.db with signals := sigs }
      last_open := if sid != "" then cacheSet st.last_open p (sid, some m.id, "open") else st.last_open
      nextId := st.nextId + 1 }
  | _, _ => st

/-- The edited-call branch (lines 376-404): overwrite the listed mutable
columns of the existing row (pair, status, created_at, message_link and
signal_id are not in the UPDATE's SET clause) and record the edit
timestamp. -/
def apply_edit (st : LoopState) (m : Msg) (sid : String) (edit_date : String) :
    LoopState :=
  let fields := parse_call m.text
  { st with db := { st.db with signals := st.db.signals.map fun r =>
      if r.signal_id == sid then
        { r with entry := fields.entry
                 target1 := fields.target1
                 target2 := fields.target2
                 target3 := fields.target3
                 target4 := fields.target4
                 stop1 := fields.stop1
                 stop2 := fields.stop2
                 risk_level := fields.risk_level
                 volume_rank_num := fields.volume_rank_num
                 volume_rank_den := fields.volume_rank_den
                 raw_text := m.text
                 text_sha1 := sha1 m.text
                 edit_date := some edit_date }
      else r } }

/-- The body of the per-message loop (lines 370-480): classify, take the
edited-call path when an edit timestamp is present and the signal already
exists, otherwise the call / update / other branches. -/
def process_message (st : LoopState) (m : Msg) : Except PyError LoopState :=
  let kind := classify m.text
  let editRow :=
    if m.edit_date.isSome && kind == "call" then
      lookup_call st.db.signals m.chat_id m.id
    else none
  match m.edit_date, editRow with
  | some ed, some row => .ok (apply_edit st m row.signal_id ed)
  | _, _ =>
    if kind == "call" then .ok (handle_call st m)
    else if kind == "update" then handle_update st m
    else .ok st

/-- The message loop with its two exception handlers (lines 369 and
482-486): a FloodWaitError raised while processing a message makes the
driver sleep `seconds + 1` and the for-loop then continues with the NEXT
message (the flood-waited message is abandoned); any other per-message error
is logged and the loop also continues.  Returns the final state and the
backoff sleeps performed. -/
def process_messages (st : LoopState) : List Msg → LoopState × List Nat
  | [] => (st, [])
  | m :: rest =>
    match m.flood with
    | some seconds =>
      let out := process_messages st rest
      (out.1, (seconds + 1) :: out.2)
    | none =>
      match process_message st m with
      | .ok st1 => process_messages st1 rest
      | .error _ => process_messages st rest

/-- Modelled from the spec: "Provider flow-control errors pause the driver
for the provider-specified duration and resume at the same message" and
"a backoff sleep on a provider rate-limit signal (resuming at the same item
— not skipping it)".  After the backoff sleep the same message is processed
(the flood condition is transient and does not recur on the retry).  This
definition exists only to be compared against `process_messages` above,
which is the translation of the source. -/
def process_messages_spec_retry (st : LoopState) : List Msg → LoopState × List Nat
  | [] => (st, [])
  | m :: rest =>
    match m.flood with
    | some seconds =>
      let st1 := match process_message st m with | .ok s => s | .error _ => st
      let out := process_messages_spec_retry st1 rest
      (out.1, (seconds + 1) :: out.2)
    | none =>
      match process_message st m with
      | .ok st1 => process_messages_spec_retry st1 rest
      | .error _ => process_messages_spec_retry st rest

/-! ### Concrete fixtures used by the witnesses and counterexamples -/

def ex_chat : Int := -1002051092635

def ex_st0 : LoopState := { db := { signals := [], updates := [] }, last_open := [], nextId := 0 }

def ex_call_text : String :=
  "ABCUSDT\nEntry: 1.0\nTarget 1: 1.1\nTarget 2: 1.2\nTarget 3: 1.3\nTarget 4: 1.4\nStop Loss 1: 0.9"

def ex_call_msg : Msg :=
  { id := 10, chat_id := ex_chat, text := ex_call_text, date := "2026-01-01T00:00:00+00:00",
    edit_date := none, reply_to_msg_id := none, entities := [], flood := none }

def ex_upd_msg (i : Nat) (t : String) : Msg :=
  { id := i, chat_id := ex_chat, text := t, date := "2026-01-02T00:00:00+00:00",
    edit_date := none, reply_to_msg_id := some 10, entities := [], flood := none }

def ex_signal : SignalRow := mkSignalRec ex_call_msg (parse_call ex_call_text) "s1"

def ex_stC : LoopState := { db := { signals := [ex_signal], updates := [] }, last_open := [], nextId := 1 }

def ex_sigW : SignalRow := { ex_signal with status := "closed_win" }

def ex_stW : LoopState := { db := { signals := [ex_sigW], updates := [] }, last_open := [], nextId := 1 }

def ex_floodMsg : Msg := { ex_call_msg with flood := some 5 }

def ex_sigA : SignalRow := { ex_signal with signal_id := "sidA", call_message_id := 400 }

def ex_stR : LoopState :=
  { db := { signals := [ex_sigA], updates := [] },
    last_open := [("ABCUSDT", ("sidB", some 600, "tp1"))], nextId := 2 }

def ex_mR : Msg :=
  { id := 500, chat_id := ex_chat, text := "ABCUSDT Target 1: 1.1 ✅", date := "d",
    edit_date := none, reply_to_msg_id := none, entities := [], flood := none }

def ex_goodCall : Msg :=
  { id := 7, chat_id := ex_chat,
    text := "Entry: 1.2345\nTarget 1: 1.30\nTarget 2: 1.35\nTarget 3: 1.40\nTarget 4: 1.45\nStop Loss 1: 1.10\nRisk Level: Medium\nVolume(24H) Ranked: 5 of 50\nXYZUSDT",
    date := "2026-01-01T00:00:00+00:00", edit_date := none, reply_to_msg_id := none,
    entities := [], flood := none }

def ex_badCall : Msg :=
  { id := 8, chat_id := ex_chat, text := "Entry: 1.5",
    date := "2026-01-01T00:00:00+00:00", edit_date := none, reply_to_msg_id := none,
    entities := [], flood := none }

def ex_row1 : SignalRow :=
  { signal_id := "g1", channel_id := ex_chat, call_message_id := 42, message_link := "L",
    pair := some "ABCUSDT", entry := some "1.0", target1 := none, target2 := none,
    target3 := none, target4 := none, stop1 := some "0.9", stop2 := none,
    risk_level := none, volume_rank_num := none, volume_rank_den := none,
    created_at := "c", status := "tp1", raw_text := "r1", text_sha1 := "h1", edit_date := none }

def ex_row2 : SignalRow :=
  { ex_row1 with signal_id := "g2", entry := some "2.0", status := "open", raw_text := "r2" }

/-! ## Theorems -/

/-- The rank table never exceeds 4. -/
theorem order_le_four (s : String) : order s ≤ 4 := by
  unfold order
  split_ifs <;> omega

/-- One status bump never lowers the rank. -/
theorem order_next_status_ge (c u : String) : order c ≤ order (next_status c u) := by
  unfold next_status
  split_ifs with h1 h2 h3 h4
  · omega
  · exact Nat.le_refl _
  · have e : order "closed_win" = 4 := by decide
    rw [e]; exact order_le_four c
  · have e : order "closed_loss" = 4 := by decide
    rw [e]; exact order_le_four c
  · exact Nat.le_refl _

set_option maxRecDepth 10000

/-- Claim C1, counterexample.  The claim asserts that the driver threads the
current status through successive bump_status calls inside a single update
message, so that the event list [tp1, tp3, tp2] arriving in one message would
end at tp3.  In the source the events loop passes the unchanged
`sig_row["status"]` to every bump, so the three writes land tp1, tp3 and
finally tp2: the persisted status ends at tp2, not tp3. -/
theorem c1_counterexample :
    (run_event_loop ex_stC (ex_upd_msg 11 "x") "ABCUSDT" "s1" "open" none
        [("tp1", none), ("tp3", none), ("tp2", none)]).db.signals.map
      (fun r => r.status) = ["tp2"] ∧
    ("tp2" : String) ≠ "tp3" := by
  exact ⟨by decide, by decide⟩

/-- Claim C1, amended.  Across separate update messages the persisted status
is threaded (each message re-reads it), so delivering tp1, tp3, tp2 as three
messages ends at tp3 — both for the pure transition fold and for the full
driver on a concrete stream — and no single transition ever lowers the rank;
but within one update message the driver ranks every event against the
pre-message status, so the same list inside a single message persists tp2. -/
theorem c1_monotonic_status :
    List.foldl next_status "open" ["tp1", "tp3", "tp2"] = "tp3" ∧
    (∀ c u, order c ≤ order (next_status c u)) ∧
    (process_messages ex_st0 [ex_call_msg, ex_upd_msg 11 "ABCUSDT Target 1: 1.1 ✅",
        ex_upd_msg 12 "ABCUSDT Target 3: 1.3 ✅",
        ex_upd_msg 13 "ABCUSDT Target 2: 1.2 ✅"]).1.db.signals.map
      (fun r => r.status) = ["tp3"] ∧
    (run_event_loop ex_stC (ex_upd_msg 11 "x") "ABCUSDT" "s1" "open" none
        [("tp1", none), ("tp3", none), ("tp2", none)]).db.signals.map
      (fun r => r.status) = ["tp2"] := by
  refine ⟨by decide, order_next_status_ge, by decide, by decide⟩

/-- Claim C2: the transition function of `bump_status`.  A tp1/tp2/tp3 event
replaces the current status exactly when its rank is higher; tp4 always
yields closed_win; sl yields closed_loss unless the current status is the
sticky closed_win; and [tp4, sl] from open ends in closed_win. -/
theorem c2_next_status_table :
    (∀ s ∈ (["open", "tp1", "tp2", "tp3", "closed_win", "closed_loss"] : List String),
      (∀ e ∈ (["tp1", "tp2", "tp3"] : List String),
        next_status s e = if order e > order s then e else s) ∧
      next_status s "tp4" = "closed_win" ∧
      next_status s "sl" = (if s = "closed_win" then "closed_win" else "closed_loss")) ∧
    List.foldl next_status "open" ["tp4", "sl"] = "closed_win" := by
  constructor
  · intro s hs
    fin_cases hs <;>
      exact ⟨fun e he => by fin_cases he <;> decide, by decide, by decide⟩
  · decide

/-- Witness for C2, instantiated at the current status tp2 and the event
tp1 (an out-of-order lower event: a no-op). -/
theorem c2_next_status_table_witness :
    next_status "tp2" "tp1" = (if order "tp1" > order "tp2" then "tp1" else "tp2") ∧
    next_status "tp2" "tp4" = "closed_win" ∧
    next_status "tp2" "sl" = (if ("tp2" : String) = "closed_win" then "closed_win" else "closed_loss") ∧
    List.foldl next_status "open" ["tp4", "sl"] = "closed_win" := by
  have h := c2_next_status_table
  exact ⟨(h.1 "tp2" (by decide)).1 "tp1" (by decide), (h.1 "tp2" (by decide)).2.1,
    (h.1 "tp2" (by decide)).2.2, h.2⟩

/-- Claim C4, counterexample.  A price-less stop-loss update resolving to a
signal whose stop1 is recorded as 0.9 is persisted with a null price: the
`fallback_prices` dict of the driver maps only tp1..tp4 to the signal's
targets, so sl events never fall back to the stop price (and, as the spec
scenario also expects, the sl event on a closed_win signal leaves the status
unchanged). -/
theorem c4_counterexample :
    (handle_update ex_stW (ex_upd_msg 20 "ABCUSDT Stop Loss hit")).toOption.map
      (fun s => (s.db.updates.map (fun r => (r.update_type, r.price)),
                 s.db.signals.map (fun r => r.status))) =
      some ([("sl", none)], ["closed_win"]) ∧
    ex_sigW.stop1 = some "0.9" ∧
    (none : Option String) ≠ some "0.9" := by
  exact ⟨by decide, by decide, by decide⟩

/-- Claim C4, amended.  A persisted update keeps the extracted price when one
is present; a price-less tp_k event falls back to the owning signal's
recorded target k; a price-less sl event (or any event when the signal row
is missing) keeps the null price — there is no stop-price fallback. -/
theorem c4_price_fallback :
    ∀ (r : SignalRow) (fb : Option SignalRow) (u p : String),
      event_price (some r) "tp1" none = r.target1 ∧
      event_price (some r) "tp2" none = r.target2 ∧
      event_price (some r) "tp3" none = r.target3 ∧
      event_price (some r) "tp4" none = r.target4 ∧
      event_price (some r) "sl" none = none ∧
      event_price none u none = none ∧
      event_price fb u (some p) = some p := by
  intro r fb u p
  refine ⟨rfl, rfl, rfl, rfl, rfl, rfl, ?_⟩
  cases fb <;> rfl

/-- Claim C5, counterexample.  A message during whose processing the provider
raises a flood-wait is not retried: the driver sleeps seconds+1 and the loop
continues with the next message, so a valid call message carrying a
flood-wait leaves the state untouched, while the retry semantics the claim
describes would have persisted one signal. -/
theorem c5_counterexample :
    (process_messages ex_st0 [ex_floodMsg]).1 = ex_st0 ∧
    (process_messages ex_st0 [ex_floodMsg]).2 = [6] ∧
    (process_messages_spec_retry ex_st0 [ex_floodMsg]).1.db.signals.length = 1 ∧
    (process_messages ex_st0 [ex_floodMsg]).1.db.signals.length ≠
      (process_messages_spec_retry ex_st0 [ex_floodMsg]).1.db.signals.length := by
  exact ⟨by decide, by decide, by decide, by decide⟩

/-- Claim C5, amended.  On a flood-wait the driver sleeps the
provider-specified seconds plus one and then continues with the next message;
the flood-waited message is skipped, its effects are lost. -/
theorem c5_flood_wait_skips :
    ∀ (st : LoopState) (m : Msg) (rest : List Msg) (s : Nat),
      m.flood = some s →
      process_messages st (m :: rest) =
        ((process_messages st rest).1, (s + 1) :: (process_messages st rest).2) := by
  intro st m rest s h
  simp [process_messages, h]

/-- Witness for C5 amended: the concrete flood message is skipped after a
six-second sleep. -/
theorem c5_flood_wait_skips_witness :
    process_messages ex_st0 [ex_floodMsg] =
      ((process_messages ex_st0 []).1, (5 + 1) :: (process_messages ex_st0 []).2) := by
  exact c5_flood_wait_skips ex_st0 ex_floodMsg [] 5 rfl

/-- A signals table holding no row with the given call_message_id yields no
conflict row. -/
theorem find?_cmid_none {l : List SignalRow} {c : Nat}
    (h : ∀ r ∈ l, r.call_message_id ≠ c) :
    l.find? (fun r => r.call_message_id == c) = none := by
  rw [List.find?_eq_none]
  intro x hx
  simpa using h x hx

/-- Overwriting conflict rows is the identity on a table without the key. -/
theorem map_overwrite_id {l : List SignalRow} {c : Nat} {f : SignalRow → SignalRow}
    (h : ∀ r ∈ l, r.call_message_id ≠ c) :
    (l.map fun r => if r.call_message_id == c then f r else r) = l := by
  induction l with
  | nil => rfl
  | cons a t ih =>
    have ha : a.call_message_id ≠ c := h a (List.mem_cons_self a t)
    simp only [List.map_cons, ih (fun r hr => h r (List.mem_cons_of_mem a hr))]
    simp [ha]

/-- Filtering for the key on a table without the key yields nothing. -/
theorem filter_cmid_nil {l : List SignalRow} {c : Nat}
    (h : ∀ r ∈ l, r.call_message_id ≠ c) :
    l.filter (fun r => r.call_message_id == c) = [] := by
  rw [List.filter_eq_nil_iff]
  intro x hx
  simpa using h x hx

/-- Claim C6: upserting the same call_message_id twice (into a table that
does not yet hold it) keeps exactly one row for that key, carrying the second
call's field values; both calls return the signal_id generated by the first
insert, and the conflict overwrite leaves the status column at the value the
row already had. -/
theorem c6_upsert_signal_idempotent :
    ∀ (signals : List SignalRow) (r1 r2 : SignalRow),
      r1.call_message_id = r2.call_message_id →
      (∀ r ∈ signals, r.call_message_id ≠ r1.call_message_id) →
      (upsert_signal signals r1).1 = r1.signal_id ∧
      (upsert_signal (upsert_signal signals r1).2 r2).1 = r1.signal_id ∧
      (upsert_signal (upsert_signal signals r1).2 r2).2.filter
          (fun r => r.call_message_id == r2.call_message_id) =
        [{ r2 with signal_id := r1.signal_id, status := r1.status }] ∧
      (upsert_signal (upsert_signal signals r1).2 r2).2.length = signals.length + 1 := by
  intro signals r1 r2 hkey hfresh
  have hfind1 : signals.find? (fun r => r.call_message_id == r1.call_message_id) = none :=
    find?_cmid_none hfresh
  have hstep1 : upsert_signal signals r1 = (r1.signal_id, signals ++ [r1]) := by
    unfold upsert_signal
    rw [hfind1]
  have hfresh2 : ∀ r ∈ signals, r.call_message_id ≠ r2.call_message_id := by
    intro r hr
    rw [← hkey]
    exact hfresh r hr
  have hfind2 : (signals ++ [r1]).find? (fun r => r.call_message_id == r2.call_message_id) =
      some r1 := by
    rw [List.find?_append, find?_cmid_none hfresh2]
    simp [hkey]
  have hstep2 : upsert_signal (signals ++ [r1]) r2 =
      (r1.signal_id,
        (signals ++ [r1]).map fun r =>
          if r.call_message_id == r2.call_message_id then sqlConflictOverwrite r r2 else r) := by
    unfold upsert_signal
    rw [hfind2]
  have hmap : ((signals ++ [r1]).map fun r =>
      if r.call_message_id == r2.call_message_id then sqlConflictOverwrite r r2 else r) =
      signals ++ [sqlConflictOverwrite r1 r2] := by
    rw [List.map_append, map_overwrite_id hfresh2]
    simp [hkey, sqlConflictOverwrite]
  refine ⟨by rw [hstep1], ?_, ?_, ?_⟩
  · rw [hstep1, hstep2]
  · rw [hstep1, hstep2, hmap, List.filter_append, filter_cmid_nil hfresh2]
    simp [sqlConflictOverwrite, ← hkey]
  · rw [hstep1, hstep2, hmap]
    simp

/-- Witness for C6: two upserts of call_message_id 42 into an empty table,
with different entry values and different fresh uuids; one row remains with
the second entry, the first signal_id, and the first row's status. -/
theorem c6_upsert_signal_idempotent_witness :
    (upsert_signal [] ex_row1).1 = "g1" ∧
    (upsert_signal (upsert_signal [] ex_row1).2 ex_row2).1 = "g1" ∧
    (upsert_signal (upsert_signal [] ex_row1).2 ex_row2).2.filter
        (fun r => r.call_message_id == ex_row2.call_message_id) =
      [{ ex_row2 with signal_id := "g1", status := "tp1" }] ∧
    (upsert_signal (upsert_signal [] ex_row1).2 ex_row2).2.length = 1 := by
  have h := c6_upsert_signal_idempotent [] ex_row1 ex_row2 rfl (by simp)
  exact ⟨h.1, h.2.1, h.2.2.1, h.2.2.2⟩

/-- Claim C7: inserting the same (channel, update_message_id, update_type)
key twice stores exactly one row; the second insert returns True and changes
nothing (a silent no-op, not an error), whatever the non-key fields of the
replayed insert are. -/
theorem c7_insert_update_idempotent :
    ∀ (updates : List UpdateRow) (sid sid2 : String) (m : Msg) (utype : String)
      (price price2 : Option String),
      (insert_update updates sid m utype price).1 = true ∧
      insert_update (insert_update updates sid m utype price).2 sid2 m utype price2 =
        (true, (insert_update updates sid m utype price).2) ∧
      ((∀ r ∈ updates, updKey m utype r = false) →
        ((insert_update updates sid m utype price).2.filter (updKey m utype)).length = 1) := by
  intro updates sid sid2 m utype price price2
  refine ⟨?_, ?_, ?_⟩
  · unfold insert_update
    split <;> rfl
  · cases hany : updates.any (updKey m utype) with
    | true =>
      have h1 : (insert_update updates sid m utype price).2 = updates := by
        simp [insert_update, hany]
      rw [h1]
      simp [insert_update, hany]
    | false =>
      have h1 : (insert_update updates sid m utype price).2 = updates ++
          [{ signal_id := sid, channel_id := m.chat_id, update_message_id := m.id,
             message_link := message_link m.chat_id m.id, update_type := utype,
             price := price, update_at := m.date, raw_text := m.text,
             reply_to_msg_id := m.reply_to_msg_id,
             linked_msg_id := extract_linked_msg_id m }] := by
        simp [insert_update, hany]
      rw [h1]
      have hany2 : (updates ++
          [{ signal_id := sid, channel_id := m.chat_id, update_message_id := m.id,
             message_link := message_link m.chat_id m.id, update_type := utype,
             price := price, update_at := m.date, raw_text := m.text,
             reply_to_msg_id := m.reply_to_msg_id,
             linked_msg_id := extract_linked_msg_id m }] : List UpdateRow).any
          (updKey m utype) = true := by
        rw [List.any_append]
        simp [updKey]
      simp [insert_update, hany2]
  · intro hfresh
    have hany : updates.any (updKey m utype) = false := by
      rw [List.any_eq_false]
      intro x hx
      simp [hfresh x hx]
    have hnil : updates.filter (updKey m utype) = [] := by
      rw [List.filter_eq_nil_iff]
      intro x hx
      simp [hfresh x hx]
    simp [insert_update, hany, List.filter_append, hnil, updKey]

/-- Witness for C7: replaying the concrete stop-loss update insert is a
no-op with one stored row. -/
theorem c7_insert_update_idempotent_witness :
    (insert_update [] "s1" (ex_upd_msg 20 "ABCUSDT Stop Loss hit") "sl" none).1 = true ∧
    insert_update (insert_update [] "s1" (ex_upd_msg 20 "ABCUSDT Stop Loss hit") "sl" none).2
        "s9" (ex_upd_msg 20 "ABCUSDT Stop Loss hit") "sl" (some "9") =
      (true, (insert_update [] "s1" (ex_upd_msg 20 "ABCUSDT Stop Loss hit") "sl" none).2) ∧
    ((insert_update [] "s1" (ex_upd_msg 20 "ABCUSDT Stop Loss hit") "sl" none).2.filter
        (updKey (ex_upd_msg 20 "ABCUSDT Stop Loss hit") "sl")).length = 1 := by
  have h := c7_insert_update_idempotent [] "s1" "s9" (ex_upd_msg 20 "ABCUSDT Stop Loss hit")
    "sl" none (some "9")
  exact ⟨h.1, h.2.1, h.2.2 (by simp)⟩

/-- Claim C3: the resolution chain runs in priority order — reply link,
embedded permalink, working-set cache, storage fallback — and a cache entry
whose cached call_message_id is not strictly below the update's message id is
never used as the owner: resolution then falls through to the storage
fallback query (as it also does when no cache entry exists). -/
theorem c3_resolver_priority :
    ∀ (st : LoopState) (m : Msg) (pair : String),
      (∀ x, resolve_via_reply st.db.signals m = some x →
        resolve_owner st m pair = .ok (some x, st.last_open)) ∧
      (resolve_via_reply st.db.signals m = none →
        ∀ x, resolve_via_link st.db.signals m = some x →
        resolve_owner st m pair = .ok (some x, st.last_open)) ∧
      (resolve_via_reply st.db.signals m = none →
        resolve_via_link st.db.signals m = none →
        ∀ sid cid cst, cacheGet st.last_open pair = some (sid, some cid, cst) →
          (cid < m.id → resolve_owner st m pair = .ok (some (sid, cst), st.last_open)) ∧
          (¬ cid < m.id → resolve_owner st m pair = .ok (resolve_fallback st m pair))) ∧
      (resolve_via_reply st.db.signals m = none →
        resolve_via_link st.db.signals m = none →
        cacheGet st.last_open pair = none →
        resolve_owner st m pair = .ok (resolve_fallback st m pair)) := by
  intro st m pair
  refine ⟨?_, ?_, ?_, ?_⟩
  · intro x hx
    simp [resolve_owner, hx]
  · intro h1 x hx
    simp [resolve_owner, h1, hx]
  · intro h1 h2 sid cid cst hc
    constructor
    · intro hlt
      simp [resolve_owner, h1, h2, hc, hlt]
    · intro hge
      simp [resolve_owner, h1, h2, hc, hge]
  · intro h1 h2 hc
    simp [resolve_owner, h1, h2, hc]

/-- Witness for C3, on the spec's own causality scenario: the update has id
500, no reply and no embedded link, the cache holds call_message_id 600 for
the pair, and storage holds an open signal with call_message_id 400 — the
cache entry is rejected and the storage fallback resolves to that signal. -/
theorem c3_resolver_priority_witness :
    resolve_owner ex_stR ex_mR "ABCUSDT" = .ok (resolve_fallback ex_stR ex_mR "ABCUSDT") ∧
    resolve_fallback ex_stR ex_mR "ABCUSDT" =
      (some ("sidA", "open"), [("ABCUSDT", ("sidA", some 400, "open"))]) := by
  have h := ((c3_resolver_priority ex_stR ex_mR "ABCUSDT").2.2.1 (by decide) (by decide)
    "sidB" 600 "tp1" (by decide)).2 (by decide)
  exact ⟨h, by decide⟩

/-- Claim C8: for a non-edit message the classifier deems a call, the driver
persists a signal (via upsert_signal with the extracted fields) exactly when
both the pair token and the entry value were extracted; when either is
missing the message changes nothing and processing continues without an
error. -/
theorem c8_call_gating :
    ∀ (st : LoopState) (m : Msg),
      m.edit_date = none →
      classify m.text = "call" →
      process_message st m = .ok (handle_call st m) ∧
      ((parse_call m.text).pair = none ∨ (parse_call m.text).entry = none →
        handle_call st m = st) ∧
      (∀ p e, (parse_call m.text).pair = some p → (parse_call m.text).entry = some e →
        (handle_call st m).db.signals =
          (upsert_signal st.db.signals
            (mkSignalRec m (parse_call m.text) (freshUuid st.nextId))).2) := by
  intro st m hedit hkind
  refine ⟨?_, ?_, ?_⟩
  · simp [process_message, hkind, hedit]
  · intro hmiss
    cases hp : (parse_call m.text).pair with
    | none => simp [handle_call, hp]
    | some p =>
      cases he : (parse_call m.text).entry with
      | none => simp [handle_call, hp, he]
      | some e =>
        rcases hmiss with h | h
        · rw [hp] at h; cases h
        · rw [he] at h; cases h
  · intro p e hp he
    simp [handle_call, hp, he]

/-- Witness for C8: the spec's scenario-1 call text is classified as a call,
extracts exactly the expected fields, and is persisted; the call text
"Entry: 1.5" (entry but no pair token) is classified as a call, extracts no
pair, and leaves the state untouched. -/
theorem c8_call_gating_witness :
    classify ex_goodCall.text = "call" ∧
    parse_call ex_goodCall.text =
      { pair := some "XYZUSDT", entry := some "1.2345", target1 := some "1.30",
        target2 := some "1.35", target3 := some "1.40", target4 := some "1.45",
        stop1 := some "1.10", stop2 := none, risk_level := some "Medium",
        volume_rank_num := some 5, volume_rank_den := some 50 } ∧
    process_message ex_st0 ex_goodCall = .ok (handle_call ex_st0 ex_goodCall) ∧
    (handle_call ex_st0 ex_goodCall).db.signals.length = 1 ∧
    classify ex_badCall.text = "call" ∧
    (parse_call ex_badCall.text).pair = none ∧
    process_message ex_st0 ex_badCall = .ok ex_st0 := by
  have hgood := c8_call_gating ex_st0 ex_goodCall rfl (by decide)
  have hbad := c8_call_gating ex_st0 ex_badCall rfl (by decide)
  refine ⟨by decide, by decide, hgood.1, by decide, by decide, by decide, ?_⟩
  rw [hbad.1, hbad.2.1 (Or.inl (by decide))]

/-- The f-string level names, evaluated. -/
theorem levelString_one : "tp" ++ toString (1 : Nat) = "tp1" := rfl

theorem levelString_two : "tp" ++ toString (2 : Nat) = "tp2" := rfl

theorem levelString_three : "tp" ++ toString (3 : Nat) = "tp3" := rfl

theorem levelString_four : "tp" ++ toString (4 : Nat) = "tp4" := rfl

/-- Claim C9: for every update text the extractor emits at most one event
per take-profit level; when the full priced form matches, the emitted event
carries its price (the loose priceless forms never double-emit); and the
"all targets hit / TP4 done" phrase appends (tp4, null) exactly when the
message's event list does not already contain a tp4 event. -/
theorem c9_update_extractor_dedup :
    ∀ (t : String),
      ((parse_update t).events.countP (fun e => e.1 == "tp1")) ≤ 1 ∧
      ((parse_update t).events.countP (fun e => e.1 == "tp2")) ≤ 1 ∧
      ((parse_update t).events.countP (fun e => e.1 == "tp3")) ≤ 1 ∧
      ((parse_update t).events.countP (fun e => e.1 == "tp4")) ≤ 1 ∧
      (∀ n, tpFullNum 1 t.data = some n → tpEvent 1 t.data = some (some n)) ∧
      (∀ n, tpFullNum 2 t.data = some n → tpEvent 2 t.data = some (some n)) ∧
      (∀ n, tpFullNum 3 t.data = some n → tpEvent 3 t.data = some (some n)) ∧
      (∀ n, tpFullNum 4 t.data = some n → tpEvent 4 t.data = some (some n)) ∧
      (allTargetsRx t.data = true → tpEvent 4 t.data = none →
        ("tp4", (none : Option String)) ∈ (parse_update t).events) := by
  intro t
  have hfw : ∀ k n, tpFullNum k t.data = some n → tpEvent k t.data = some (some n) := by
    intro k n h
    simp [tpEvent, h]
  have key :
      ((parse_update t).events.countP (fun e => e.1 == "tp1")) ≤ 1 ∧
      ((parse_update t).events.countP (fun e => e.1 == "tp2")) ≤ 1 ∧
      ((parse_update t).events.countP (fun e => e.1 == "tp3")) ≤ 1 ∧
      ((parse_update t).events.countP (fun e => e.1 == "tp4")) ≤ 1 ∧
      (allTargetsRx t.data = true → tpEvent 4 t.data = none →
        ("tp4", (none : Option String)) ∈ (parse_update t).events) := by
    rcases h1 : tpEvent 1 t.data with _ | p1 <;>
    rcases h2 : tpEvent 2 t.data with _ | p2 <;>
    rcases h3 : tpEvent 3 t.data with _ | p3 <;>
    rcases h4 : tpEvent 4 t.data with _ | p4 <;>
    cases hsl : slLabelExists t.data <;>
    cases hat : allTargetsRx t.data <;>
      simp [parse_update, h1, h2, h3, h4, hsl, hat, List.countP_cons,
        levelString_one, levelString_two, levelString_three, levelString_four]
  exact ⟨key.1, key.2.1, key.2.2.1, key.2.2.2.1, hfw 1, hfw 2, hfw 3, hfw 4,
    key.2.2.2.2⟩

/-- Witness for C9 on a message carrying both a priced Target-1 hit and an
"all targets hit" phrase: one tp1 event with the full form's price, one
appended tp4 event, no duplicates. -/
theorem c9_update_extractor_dedup_witness :
    ((parse_update "ABCUSDT Target 1: 1.30 ✅ all targets hit").events.countP
      (fun e => e.1 == "tp1")) ≤ 1 ∧
    ((parse_update "ABCUSDT Target 1: 1.30 ✅ all targets hit").events.countP
      (fun e => e.1 == "tp4")) ≤ 1 ∧
    tpEvent 1 "ABCUSDT Target 1: 1.30 ✅ all targets hit".data = some (some "1.30") ∧
    ("tp4", (none : Option String)) ∈
      (parse_update "ABCUSDT Target 1: 1.30 ✅ all targets hit").events := by
  have h := c9_update_extractor_dedup "ABCUSDT Target 1: 1.30 ✅ all targets hit"
  exact ⟨h.1, h.2.2.2.1,
    h.2.2.2.2.1 "1.30" (by decide),
    h.2.2.2.2.2.2.2.2 (by decide) (by decide)⟩

/-- Claim C10: the pure text functions are total.  In this embedding all
three are total Lean functions; the classifier always answers exactly one of
the three kinds, `parse_call` always yields a field record, and every event
`parse_update` emits has one of the five event types. -/
theorem c10_parser_totality :
    ∀ (t : String),
      (classify t = "call" ∨ classify t = "update" ∨ classify t = "other") ∧
      (∃ r : CallFields, parse_call t = r) ∧
      (∀ e ∈ (parse_update t).events,
        e.1 = "tp1" ∨ e.1 = "tp2" ∨ e.1 = "tp3" ∨ e.1 = "tp4" ∨ e.1 = "sl") := by
  intro t
  refine ⟨?_, ⟨parse_call t, rfl⟩, ?_⟩
  · cases hd : dailyResultsRx (pyStrip t.data) <;>
    cases he : entryCallRx (pyStrip t.data) <;>
    cases hu : (targetHitRx (pyStrip t.data) || slLabelExists (pyStrip t.data) ||
      tpHitRx (pyStrip t.data)) <;>
      simp [classify, hd, he, hu]
  · rcases h1 : tpEvent 1 t.data with _ | p1 <;>
    rcases h2 : tpEvent 2 t.data with _ | p2 <;>
    rcases h3 : tpEvent 3 t.data with _ | p3 <;>
    rcases h4 : tpEvent 4 t.data with _ | p4 <;>
    cases hsl : slLabelExists t.data <;>
    cases hat : allTargetsRx t.data <;>
      simp [parse_update, h1, h2, h3, h4, hsl, hat,
        levelString_one, levelString_two, levelString_three, levelString_four]

/-- Witness for C10 at the empty text and at a stop-loss text whose single
event is typed sl. -/
theorem c10_parser_totality_witness :
    (classify "" = "call" ∨ classify "" = "update" ∨ classify "" = "other") ∧
    (("sl", (none : Option String)).1 = "tp1" ∨ ("sl", (none : Option String)).1 = "tp2" ∨
     ("sl", (none : Option String)).1 = "tp3" ∨ ("sl", (none : Option String)).1 = "tp4" ∨
     ("sl", (none : Option String)).1 = "sl") := by
  exact ⟨(c10_parser_totality "").1,
    (c10_parser_totality "Stop Loss hit").2.2 ("sl", none) (by decide)⟩

end LuxQuant
